import Mathlib

/-!
Verification development for the `CustomLogger` configuration wrapper
(`src/custom_logger.py`). The Python class configures a named logger from the
process-wide logging registry with an optional file handler and an optional
stream handler. We embed the class as pure functions over an explicit registry
(an association list from logger names to logger states), and embed the parts
of the host `logging` runtime the class relies on: level constants, the
name-to-level mapping, handler registration, the record-emission filter, the
percent-style format-string interpreter and the `strftime` time formatter.
-/

namespace CLog

/-- Level constant `logging.NOTSET`. -/
def NOTSET : Nat := 0

/-- Level constant `logging.DEBUG`. -/
def DEBUG : Nat := 10

/-- Level constant `logging.INFO`. -/
def INFO : Nat := 20

/-- Level constant `logging.WARNING`. -/
def WARNING : Nat := 30

/-- Level constant `logging.ERROR`. -/
def ERROR : Nat := 40

/-- Level constant `logging.CRITICAL`. -/
def CRITICAL : Nat := 50

/-- Model of Python `str.upper()` (ASCII case mapping, which is all the level
lookup in `_get_log_level` distinguishes). -/
def pyUpper (s : String) : String := String.mk (s.data.map Char.toUpper)

/-- Embedding of `CustomLogger._get_log_level`: the dictionary lookup
`levels.get(log_level.upper(), logging.DEBUG)` over the five recognized keys,
defaulting to `DEBUG`. -/
def get_log_level (log_level : String) : Nat :=
  let u := pyUpper log_level
  if u = "DEBUG" then DEBUG
  else if u = "INFO" then INFO
  else if u = "WARNING" then WARNING
  else if u = "ERROR" then ERROR
  else if u = "CRITICAL" then CRITICAL
  else DEBUG

/-- Embedding of POSIX `os.path.join` for two components, following CPython
`posixpath.join`: an absolute second component replaces the path; an empty or
slash-terminated first component is concatenated without a separator;
otherwise a single separator is inserted. -/
def osPathJoin (a b : String) : String :=
  if b.data.head? = some '/' then b
  else if a = "" ∨ a.data.getLast? = some '/' then a ++ b
  else a ++ "/" ++ b

/-- A handler's output target: a file sink (with the path and open mode passed
to `logging.FileHandler`) or the console stream sink. -/
inductive SinkKind where
  | file (path : String) (mode : String)
  | stream
deriving DecidableEq

/-- State of a handler as configured by the class: target, minimum level,
format string and date-format string. -/
structure Handler where
  kind : SinkKind
  level : Nat
  fmt : String
  datefmt : String
deriving DecidableEq

/-- State of a named logger in the registry: its level and attached handlers. -/
structure LoggerState where
  level : Nat
  handlers : List Handler
deriving DecidableEq

/-- A logger freshly created by `logging.getLogger`: level `NOTSET`, no
handlers. -/
def freshLogger : LoggerState := { level := NOTSET, handlers := [] }

/-- The process-wide named-logger registry, made explicit. -/
abbrev Registry := List (String × LoggerState)

/-- Look a logger up by name in the registry. -/
def findLogger : Registry → String → Option LoggerState
  | [], _ => none
  | (k, st) :: rest, name => if k = name then some st else findLogger rest name

/-- Store a logger state under a name: replace the existing entry in place or
append a new one. -/
def setLogger : Registry → String → LoggerState → Registry
  | [], name, st => [(name, st)]
  | (k, st0) :: rest, name, st =>
      if k = name then (k, st) :: rest else (k, st0) :: setLogger rest name st

/-- The state `logging.getLogger(name)` hands back: the registered state if the
name is present, a fresh logger otherwise. -/
def getLoggerState (reg : Registry) (name : String) : LoggerState :=
  (findLogger reg name).getD freshLogger

/-- The format string passed to `logging.Formatter` in both
`_create_file_handler` and `_create_stream_handler`. -/
def logFmt : String :=
  "[%(name)s] %(levelname)s (%(asctime)s): %(message)s (Line: %(lineno)d) [%(filename)s]"

/-- The date-format string passed to `logging.Formatter` in both handler
constructors. -/
def logDatefmt : String := "%m-%d %I:%M %p"

/-- The fields of a `CustomLogger` instance that later behavior reads:
`self.logger`'s name, `self.log_file_name` and `self.log_dir_path`. -/
structure SelfState where
  loggerName : String
  log_file_name : String
  log_dir_path : String
deriving DecidableEq

/-- The file path computed in `_create_file_handler`:
`os.path.join(self.log_dir_path, f"(self.log_file_name)_logger.log")`. -/
def filePathOf (self : SelfState) : String :=
  osPathJoin self.log_dir_path (self.log_file_name ++ "_logger.log")

/-- The handler built by `_create_file_handler`: a `FileHandler` on
`filePathOf` opened with mode `a+`, at the resolved level, with the shared
formatter. -/
def mkFileHandler (self : SelfState) (log_level : String) : Handler :=
  { kind := SinkKind.file (filePathOf self) "a+"
  , level := get_log_level log_level
  , fmt := logFmt
  , datefmt := logDatefmt }

/-- The handler built by `_create_stream_handler`: a `StreamHandler` at the
resolved level, with the shared formatter. -/
def mkStreamHandler (log_level : String) : Handler :=
  { kind := SinkKind.stream
  , level := get_log_level log_level
  , fmt := logFmt
  , datefmt := logDatefmt }

/-- `Logger.addHandler`: each call in the class constructs a fresh handler
object, so the registry membership test in the Python runtime never fires and
the handler is appended to the logger's handler list. -/
def addHandler (st : LoggerState) (h : Handler) : LoggerState :=
  { st with handlers := st.handlers ++ [h] }

/-- The successful body of `CustomLogger.__init__`: fetch the named logger,
set its level to `DEBUG`, record the file name and directory on the instance,
then attach the file handler and the stream handler when enabled. -/
def initBody (reg : Registry) (log_file_name log_dir_path logger_name : String)
    (file_log_level stream_log_level : String)
    (file_handler stream_handler : Bool) : Registry × SelfState :=
  let st0 := getLoggerState reg logger_name
  let st1 := { st0 with level := DEBUG }
  let self : SelfState :=
    { loggerName := logger_name
    , log_file_name := log_file_name
    , log_dir_path := log_dir_path }
  let st2 := if file_handler then addHandler st1 (mkFileHandler self file_log_level) else st1
  let st3 := if stream_handler then addHandler st2 (mkStreamHandler stream_log_level) else st2
  (setLogger reg logger_name st3, self)

/-- Embedding of `CustomLogger.__init__`: `if not logger_name` raises
`Exception("Assign logger name.")` (for a string argument, `not` holds exactly
of the empty string); otherwise the body runs and returns the updated registry
together with the instance state. -/
def CustomLogger.init (reg : Registry) (log_file_name log_dir_path logger_name : String)
    (file_log_level stream_log_level : String)
    (file_handler stream_handler : Bool) : Except String (Registry × SelfState) :=
  if logger_name = "" then Except.error "Assign logger name."
  else Except.ok (initBody reg log_file_name log_dir_path logger_name
    file_log_level stream_log_level file_handler stream_handler)

/-- Embedding of `CustomLogger.get_logger`: returns `self.logger`, i.e. the
registry entry identified by the logger's name. -/
def get_logger (self : SelfState) : String := self.loggerName

/-- `Logger.isEnabledFor`: the record's level must reach the logger's
(effective) level. -/
def isEnabledFor (st : LoggerState) (severity : Nat) : Bool :=
  st.level ≤ severity

/-- The per-handler filter in `Logger.callHandlers`: the record's level must
reach the handler's level. -/
def handlerPasses (h : Handler) (severity : Nat) : Bool :=
  h.level ≤ severity

/-- A sink writes a record exactly when the logger-level filter and the
handler-level filter both pass. -/
def sinkWrites (st : LoggerState) (h : Handler) (severity : Nat) : Bool :=
  isEnabledFor st severity && handlerPasses h severity

/-- A log record with the attributes the configured format string reads:
`name`, `levelno`, `message`, `lineno`, `filename`, and the wall-clock fields
the date format reads (month, day of month, hour in 0..23, minute). -/
structure Record where
  name : String
  levelno : Nat
  msg : String
  lineno : Nat
  filename : String
  month : Nat
  day : Nat
  hour : Nat
  minute : Nat
deriving DecidableEq

/-- `logging.getLevelName` on the standard levels. -/
def getLevelName (n : Nat) : String :=
  if n = CRITICAL then "CRITICAL"
  else if n = ERROR then "ERROR"
  else if n = WARNING then "WARNING"
  else if n = INFO then "INFO"
  else if n = DEBUG then "DEBUG"
  else if n = NOTSET then "NOTSET"
  else "Level " ++ toString n

/-- Zero-padded two-digit rendering used by the numeric `strftime`
directives. -/
def pad2 (n : Nat) : String := if n < 10 then "0" ++ toString n else toString n

/-- The value rendered by `strftime`'s `%I` directive: hour on a 12-hour
clock, in 1..12. -/
def hour12 (h : Nat) : Nat := if h % 12 = 0 then 12 else h % 12

/-- The value rendered by `strftime`'s `%p` directive. -/
def ampm (h : Nat) : String := if h % 24 < 12 then "AM" else "PM"

/-- Interpreter for the `strftime` directives appearing in the configured date
format, over the record's time fields; other characters pass through. -/
def strftimeChars (r : Record) : List Char → String
  | [] => ""
  | '%' :: c :: rest =>
      (if c = 'm' then pad2 r.month
       else if c = 'd' then pad2 r.day
       else if c = 'I' then pad2 (hour12 r.hour)
       else if c = 'M' then pad2 r.minute
       else if c = 'p' then ampm r.hour
       else String.mk ['%', c]) ++ strftimeChars r rest
  | c :: rest => String.singleton c ++ strftimeChars r rest

/-- The record attribute substituted for a `%(field)conv` directive of the
format string (`%d` on `lineno` renders the integer in decimal, like
`toString`). -/
def fieldValue (r : Record) (asc : String) (field : String) (conv : Char) : String :=
  if field = "name" then r.name
  else if field = "levelname" then getLevelName r.levelno
  else if field = "asctime" then asc
  else if field = "message" then r.msg
  else if field = "lineno" then toString r.lineno
  else if field = "filename" then r.filename
  else String.singleton conv

mutual

/-- Interpreter for percent-style format strings restricted to the
`%(field)conv` directive form used by `logging.Formatter`; literal characters
pass through. -/
def interpFmt (r : Record) (asc : String) (l : List Char) : List Char :=
  match l with
  | [] => []
  | '%' :: '(' :: rest => interpKey r asc rest []
  | c :: rest => c :: interpFmt r asc rest
termination_by l.length

/-- Helper for `interpFmt`: accumulate the field name up to the closing
parenthesis, then substitute and continue. -/
def interpKey (r : Record) (asc : String) (l : List Char) (acc : List Char) : List Char :=
  match l with
  | [] => []
  | ')' :: conv :: rest =>
      (fieldValue r asc (String.mk acc.reverse) conv).data ++ interpFmt r asc rest
  | c :: rest => interpKey r asc rest (c :: acc)
termination_by l.length

end

/-- `Formatter.format` for a handler: substitute the record (and the rendered
`asctime`) into the handler's format string. -/
def formatRecord (h : Handler) (r : Record) : String :=
  String.mk (interpFmt r (strftimeChars r h.datefmt.data) h.fmt.data)

/-- Modelled host-runtime semantics of opening a log file, restricted to what
distinguishes the open modes: a mode containing the truncating `w` flag
discards the existing lines, any other mode (such as the append mode `a+`
used by `_create_file_handler`) keeps them. -/
def openLines (mode : String) (existing : List String) : List String :=
  if 'w' ∈ mode.data then [] else existing

/-- Modelled from the spec: the tabular diagnostic helper `logTablePreview` is
not part of `src/custom_logger.py` (the spec describes it in §4.2); per the
spec it emits, at DEBUG severity, a bounded preview of the table — its first 5
rows, or fewer if the table is shorter. We render the emission as the list of
(severity, row) pairs written. -/
def logTablePreview (table : List (List String)) : List (Nat × List String) :=
  (table.take 5).map (fun row => (DEBUG, row))

/-- A concrete sample record used to instantiate the formatting theorem: an
INFO-level message emitted at 13:05 on March 7. -/
def sampleRecord : Record :=
  { name := "L", levelno := 20, msg := "hello", lineno := 42
  , filename := "custom_logger.py", month := 3, day := 7, hour := 13, minute := 5 }

/-- Number of registry entries stored under a given name. -/
def countKey (reg : Registry) (name : String) : Nat :=
  (reg.filter (fun p => p.1 == name)).length

/-- Number of handlers attached to the named logger. -/
def handlerCount (reg : Registry) (name : String) : Nat :=
  (getLoggerState reg name).handlers.length

/-- Iterate `CustomLogger.init` with fixed arguments `n` times, threading the
registry through the successful results. -/
def initIter (n : Nat) (reg : Registry) (fn dp name fl sl : String) (fh sh : Bool) : Registry :=
  match n with
  | 0 => reg
  | Nat.succ m =>
      let prev := initIter m reg fn dp name fl sl fh sh
      match CustomLogger.init prev fn dp name fl sl fh sh with
      | Except.ok (regOut, _) => regOut
      | Except.error _ => prev

theorem findLogger_setLogger (reg : Registry) (name : String) (st : LoggerState) :
    findLogger (setLogger reg name st) name = some st := by
  induction reg with
  | nil => simp [setLogger, findLogger]
  | cons p rest ih =>
      by_cases h : p.1 = name
      · simp [setLogger, findLogger, h]
      · simp [setLogger, findLogger, h, ih]

theorem countKey_setLogger (reg : Registry) (name : String) (st : LoggerState) :
    countKey (setLogger reg name st) name
      = if findLogger reg name = none then countKey reg name + 1 else countKey reg name := by
  induction reg with
  | nil => simp [setLogger, findLogger, countKey]
  | cons p rest ih =>
      by_cases h : p.1 = name
      · simp [setLogger, findLogger, countKey, h]
      · simp only [setLogger, findLogger, countKey, h, if_neg] at ih ⊢
        simp only [List.filter, countKey] at ih ⊢
        have hbeq : (p.1 == name) = false := beq_false_of_ne h
        simp [hbeq, ih]

theorem string_append_assoc (a b c : String) : a ++ b ++ c = a ++ (b ++ c) := by
  cases a; cases b; cases c
  apply String.ext
  simp [String.append, List.append_assoc]

theorem init_ok_inv (reg : Registry) (fn dp name fl sl : String) (fh sh : Bool)
    (regOut : Registry) (self : SelfState)
    (hok : CustomLogger.init reg fn dp name fl sl fh sh = Except.ok (regOut, self)) :
    name ≠ "" ∧ (regOut, self) = initBody reg fn dp name fl sl fh sh := by
  by_cases h : name = ""
  · simp [CustomLogger.init, h] at hok
  · refine ⟨h, ?_⟩
    simp only [CustomLogger.init, if_neg h, Except.ok.injEq] at hok
    exact hok.symm

theorem initBody_state (reg : Registry) (fn dp name fl sl : String) (fh sh : Bool) :
    getLoggerState (initBody reg fn dp name fl sl fh sh).1 name
      = { level := DEBUG
        , handlers := (getLoggerState reg name).handlers
            ++ (if fh then [mkFileHandler ⟨name, fn, dp⟩ fl] else [])
            ++ (if sh then [mkStreamHandler sl] else []) } := by
  simp only [initBody, getLoggerState, findLogger_setLogger, Option.getD_some]
  cases fh <;> cases sh <;> simp [addHandler, getLoggerState]

theorem initBody_self (reg : Registry) (fn dp name fl sl : String) (fh sh : Bool) :
    (initBody reg fn dp name fl sl fh sh).2
      = { loggerName := name, log_file_name := fn, log_dir_path := dp } := rfl

theorem sinkWrites_iff (st : LoggerState) (h : Handler) (s : Nat) :
    sinkWrites st h s = true ↔ h.level ≤ s ∧ st.level ≤ s := by
  simp [sinkWrites, isEnabledFor, handlerPasses, Bool.and_eq_true, and_comm]

theorem handlerCount_initBody (reg : Registry) (fn dp name fl sl : String) (fh sh : Bool) :
    handlerCount (initBody reg fn dp name fl sl fh sh).1 name
      = handlerCount reg name + ((if fh then 1 else 0) + (if sh then 1 else 0)) := by
  simp only [handlerCount, initBody_state]
  cases fh <;> cases sh <;> simp

theorem initIter_succ (m : Nat) (reg : Registry) (fn dp name fl sl : String) (fh sh : Bool)
    (hname : name ≠ "") :
    initIter (m + 1) reg fn dp name fl sl fh sh
      = (initBody (initIter m reg fn dp name fl sl fh sh) fn dp name fl sl fh sh).1 := by
  simp [initIter, CustomLogger.init, hname]

theorem countKey_eq_zero_of_findLogger_none (reg : Registry) (name : String)
    (h : findLogger reg name = none) : countKey reg name = 0 := by
  induction reg with
  | nil => simp [countKey]
  | cons p rest ih =>
      by_cases hp : p.1 = name
      · simp [findLogger, hp] at h
      · simp only [findLogger, if_neg hp] at h
        simp only [countKey, List.filter] at ih ⊢
        simp [beq_false_of_ne hp, ih h]

theorem logFmt_data : logFmt.data =
    ['[', '%', '(', 'n', 'a', 'm', 'e', ')', 's', ']', ' ', '%', '(', 'l', 'e', 'v', 'e', 'l',
     'n', 'a', 'm', 'e', ')', 's', ' ', '(', '%', '(', 'a', 's', 'c', 't', 'i', 'm', 'e', ')',
     's', ')', ':', ' ', '%', '(', 'm', 'e', 's', 's', 'a', 'g', 'e', ')', 's', ' ', '(', 'L',
     'i', 'n', 'e', ':', ' ', '%', '(', 'l', 'i', 'n', 'e', 'n', 'o', ')', 'd', ')', ' ', '[',
     '%', '(', 'f', 'i', 'l', 'e', 'n', 'a', 'm', 'e', ')', 's', ']'] := rfl

theorem logDatefmt_data : logDatefmt.data =
    ['%', 'm', '-', '%', 'd', ' ', '%', 'I', ':', '%', 'M', ' ', '%', 'p'] := rfl

theorem interpFmt_logFmt (r : Record) (asc : String) :
    String.mk (interpFmt r asc logFmt.data) =
      "[" ++ r.name ++ "] " ++ getLevelName r.levelno ++ " (" ++ asc ++ "): " ++ r.msg
      ++ " (Line: " ++ toString r.lineno ++ ") [" ++ r.filename ++ "]" := by
  apply String.ext
  show interpFmt r asc logFmt.data = _
  rw [logFmt_data]
  simp [interpFmt, interpKey, fieldValue, String.append]

theorem strftime_logDatefmt (r : Record) :
    strftimeChars r logDatefmt.data
      = pad2 r.month ++ "-" ++ pad2 r.day ++ " " ++ pad2 (hour12 r.hour) ++ ":"
        ++ pad2 r.minute ++ " " ++ ampm r.hour := by
  apply String.ext
  rw [logDatefmt_data]
  simp [strftimeChars, String.append, String.singleton]

theorem hour12_bounds (h : Nat) : 1 ≤ hour12 h ∧ hour12 h ≤ 12 := by
  unfold hour12
  by_cases hz : h % 12 = 0
  · rw [if_pos hz]
    omega
  · rw [if_neg hz]
    have := Nat.mod_lt h (show 0 < 12 by omega)
    omega

theorem ampm_cases (h : Nat) : ampm h = "AM" ∨ ampm h = "PM" := by
  unfold ampm
  by_cases hc : h % 24 < 12
  · exact Or.inl (by rw [if_pos hc])
  · exact Or.inr (by rw [if_neg hc])

theorem toNat_ofNat_of_lt {n : Nat} (h : n < 55296) : (Char.ofNat n).toNat = n := by
  have hv : n.isValidChar := Or.inl h
  rw [Char.ofNat, dif_pos hv]
  simp [Char.ofNatAux, Char.toNat, UInt32.toNat]

theorem toUpper_toUpper (c : Char) : c.toUpper.toUpper = c.toUpper := by
  simp only [Char.toUpper]
  by_cases h : c.toNat ≥ 97 ∧ c.toNat ≤ 122
  · rw [if_pos h]
    have ht : (Char.ofNat (c.toNat - 32)).toNat = c.toNat - 32 :=
      toNat_ofNat_of_lt (by omega)
    rw [if_neg (by rw [ht]; omega)]
  · simp only [if_neg h]

theorem pyUpper_pyUpper (s : String) : pyUpper (pyUpper s) = pyUpper s := by
  simp only [pyUpper, List.map_map]
  refine congrArg String.mk (List.map_congr_left ?_)
  intro c _
  exact toUpper_toUpper c

/-- C1 (amended): `CustomLogger.__init__` raises the configuration exception
exactly for the empty logger name; every non-empty name — whitespace-only
names included — is accepted and yields a handle. -/
theorem C1_empty_name_rejected (reg : Registry) (fn dp name fl sl : String) (fh sh : Bool) :
    (name = "" →
      CustomLogger.init reg fn dp name fl sl fh sh = Except.error "Assign logger name.")
    ∧ (name ≠ "" → (CustomLogger.init reg fn dp name fl sl fh sh).isOk = true) := by
  constructor
  · intro h
    simp [CustomLogger.init, h]
  · intro h
    simp [CustomLogger.init, h, Except.isOk, Except.toBool]

/-- C1 counterexample: the claim says a whitespace-only (blank) logger name
fails, but constructing with the name consisting of a single space
succeeds — Python's `if not logger_name` only fires on the empty string. -/
theorem C1_blank_name_accepted :
    (CustomLogger.init [] "scraper_log" "logs" " " "DEBUG" "DEBUG" true true).isOk = true := by
  decide

/-- C1 witness: the amended theorem applied at a concrete blank name. -/
theorem C1_empty_name_rejected_witness :
    ((" " : String) ≠ "")
    ∧ (CustomLogger.init [] "scraper" "logs" " " "DEBUG" "DEBUG" true true).isOk = true :=
  ⟨by decide, (C1_empty_name_rejected [] "scraper" "logs" " " "DEBUG" "DEBUG" true true).2
    (by decide)⟩

/-- C2: a severity string whose uppercasing is outside the recognized set
resolves to `DEBUG` (without failing), and constructing the logger with such a
string behaves exactly as if `DEBUG` had been requested. -/
theorem C2_unrecognized_level_defaults_debug (s : String)
    (hs : pyUpper s ∉ ["DEBUG", "INFO", "WARNING", "ERROR", "CRITICAL"])
    (reg : Registry) (fn dp name : String) (fh sh : Bool) :
    get_log_level s = DEBUG
    ∧ CustomLogger.init reg fn dp name s s fh sh
        = CustomLogger.init reg fn dp name "DEBUG" "DEBUG" fh sh := by
  simp only [List.mem_cons, List.not_mem_nil, or_false, not_or] at hs
  obtain ⟨h1, h2, h3, h4, h5⟩ := hs
  have hval : get_log_level s = DEBUG := by
    simp only [get_log_level]
    rw [if_neg h1, if_neg h2, if_neg h3, if_neg h4, if_neg h5]
  have hdbg : get_log_level "DEBUG" = DEBUG := by decide
  refine ⟨hval, ?_⟩
  simp [CustomLogger.init, initBody, mkFileHandler, mkStreamHandler, hval, hdbg]

/-- C2 witness: the theorem applied at the spec's example string `VERBOSE`. -/
theorem C2_unrecognized_level_defaults_debug_witness :
    pyUpper "VERBOSE" ∉ ["DEBUG", "INFO", "WARNING", "ERROR", "CRITICAL"]
    ∧ (get_log_level "VERBOSE" = DEBUG
        ∧ CustomLogger.init [] "f" "d" "L" "VERBOSE" "VERBOSE" true true
            = CustomLogger.init [] "f" "d" "L" "DEBUG" "DEBUG" true true) :=
  ⟨by decide,
    C2_unrecognized_level_defaults_debug "VERBOSE" (by decide) [] "f" "d" "L" true true⟩

/-- C10: severity-string resolution is case-insensitive: `_get_log_level` of
any string equals `_get_log_level` of its uppercased form, so `info`, `Info`
and `INFO` all resolve to the same level constant. -/
theorem C10_get_log_level_case_insensitive (s : String) :
    get_log_level s = get_log_level (pyUpper s) := by
  simp only [get_log_level, pyUpper_pyUpper]

/-- C3: after any successful construction, the handle's overall minimum
severity is `DEBUG`, and a sink of the handle writes a record at severity `s`
if and only if `s` reaches the sink's threshold and the handle's overall
minimum severity. -/
theorem C3_sink_filter (reg : Registry) (fn dp name fl sl : String) (fh sh : Bool)
    (regOut : Registry) (self : SelfState)
    (hok : CustomLogger.init reg fn dp name fl sl fh sh = Except.ok (regOut, self))
    (h : Handler) (hmem : h ∈ (getLoggerState regOut (get_logger self)).handlers) (s : Nat) :
    (getLoggerState regOut (get_logger self)).level = DEBUG
    ∧ (sinkWrites (getLoggerState regOut (get_logger self)) h s = true
        ↔ h.level ≤ s ∧ (getLoggerState regOut (get_logger self)).level ≤ s) := by
  obtain ⟨hname, hbody⟩ := init_ok_inv reg fn dp name fl sl fh sh regOut self hok
  have hreg : regOut = (initBody reg fn dp name fl sl fh sh).1 := by rw [← hbody]
  have hself : self = (initBody reg fn dp name fl sl fh sh).2 := by rw [← hbody]
  have hgl : get_logger self = name := by
    simp [hself, initBody_self, get_logger]
  refine ⟨?_, sinkWrites_iff _ h s⟩
  rw [hreg, hgl, initBody_state]

/-- C3 witness: the theorem applied to the construction with
`file_log_level = "INFO"`, looking at the file sink at severity `DEBUG`
(where the sink-threshold filter fails). -/
theorem C3_sink_filter_witness :
    (getLoggerState
        [("L", { level := 10
               , handlers :=
                  [ { kind := SinkKind.file "logs/f_logger.log" "a+", level := 20
                    , fmt := logFmt, datefmt := logDatefmt }
                  , { kind := SinkKind.stream, level := 10
                    , fmt := logFmt, datefmt := logDatefmt } ] })]
        (get_logger { loggerName := "L", log_file_name := "f", log_dir_path := "logs" })).level
      = DEBUG
    ∧ (sinkWrites
        (getLoggerState
          [("L", { level := 10
                 , handlers :=
                    [ { kind := SinkKind.file "logs/f_logger.log" "a+", level := 20
                      , fmt := logFmt, datefmt := logDatefmt }
                    , { kind := SinkKind.stream, level := 10
                      , fmt := logFmt, datefmt := logDatefmt } ] })]
          (get_logger { loggerName := "L", log_file_name := "f", log_dir_path := "logs" }))
        { kind := SinkKind.file "logs/f_logger.log" "a+", level := 20
        , fmt := logFmt, datefmt := logDatefmt } 10 = true
        ↔ ({ kind := SinkKind.file "logs/f_logger.log" "a+", level := 20
           , fmt := logFmt, datefmt := logDatefmt } : Handler).level ≤ 10
          ∧ (getLoggerState
              [("L", { level := 10
                     , handlers :=
                        [ { kind := SinkKind.file "logs/f_logger.log" "a+", level := 20
                          , fmt := logFmt, datefmt := logDatefmt }
                        , { kind := SinkKind.stream, level := 10
                          , fmt := logFmt, datefmt := logDatefmt } ] })]
              (get_logger
                { loggerName := "L", log_file_name := "f", log_dir_path := "logs" })).level
            ≤ 10) :=
  C3_sink_filter [] "f" "logs" "L" "INFO" "DEBUG" true true
    [("L", { level := 10
           , handlers :=
              [ { kind := SinkKind.file "logs/f_logger.log" "a+", level := 20
                , fmt := logFmt, datefmt := logDatefmt }
              , { kind := SinkKind.stream, level := 10
                , fmt := logFmt, datefmt := logDatefmt } ] })]
    { loggerName := "L", log_file_name := "f", log_dir_path := "logs" }
    rfl
    { kind := SinkKind.file "logs/f_logger.log" "a+", level := 20
    , fmt := logFmt, datefmt := logDatefmt }
    (by decide) 10

/-- C4 counterexample: the claim's path template fails when the directory ends
with a separator: with `fileDirectory = "logs/"` the sink path is
`logs/scraper_log_logger.log`, not the template's `logs//scraper_log_logger.log`. -/
theorem C4_path_counterexample :
    filePathOf { loggerName := "L", log_file_name := "scraper_log", log_dir_path := "logs/" }
      ≠ "logs/" ++ "/" ++ "scraper_log" ++ "_logger.log" := by decide

/-- C4 (amended): when the directory is non-empty and does not end with a
separator and the file-name component is not absolute, the file sink's output
path equals the template; and with the file sink disabled, the directory and
base name do not influence the registered logger state. -/
theorem C4_path_template (reg : Registry) (fn dp fn2 dp2 name fl sl : String) (sh : Bool)
    (hdp : ¬ dp = "") (hds : ¬ dp.data.getLast? = some '/')
    (hfn : ¬ (fn ++ "_logger.log").data.head? = some '/') :
    (mkFileHandler { loggerName := name, log_file_name := fn, log_dir_path := dp } fl).kind
      = SinkKind.file (dp ++ "/" ++ fn ++ "_logger.log") "a+"
    ∧ Except.map Prod.fst (CustomLogger.init reg fn dp name fl sl false sh)
        = Except.map Prod.fst (CustomLogger.init reg fn2 dp2 name fl sl false sh) := by
  constructor
  · simp only [mkFileHandler, filePathOf, osPathJoin]
    rw [if_neg hfn, if_neg (not_or.mpr ⟨hdp, hds⟩)]
    rw [string_append_assoc (dp ++ "/") fn "_logger.log"]
  · by_cases hname : name = "" <;>
      simp [CustomLogger.init, initBody, hname, Except.map]

/-- C4 witness: the amended theorem applied at a concrete directory and base
name. -/
theorem C4_path_template_witness :
    (mkFileHandler
        { loggerName := "L", log_file_name := "scraper_log", log_dir_path := "logs" }
        "DEBUG").kind
      = SinkKind.file ("logs" ++ "/" ++ "scraper_log" ++ "_logger.log") "a+"
    ∧ Except.map Prod.fst (CustomLogger.init [] "scraper_log" "logs" "L" "DEBUG" "DEBUG" false true)
        = Except.map Prod.fst (CustomLogger.init [] "x" "y" "L" "DEBUG" "DEBUG" false true) :=
  C4_path_template [] "scraper_log" "logs" "x" "y" "L" "DEBUG" "DEBUG" true
    (by decide) (by decide) (by decide)

/-- C5: after any successful construction with the file sink enabled, the
resulting handle owns a file sink on the computed path opened with mode `a+`,
and opening a file in mode `a+` keeps every prior line (never truncates), so a
second construction on the same path leaves existing lines unchanged. -/
theorem C5_file_sink_append_mode (reg : Registry) (fn dp name fl sl : String) (sh : Bool)
    (regOut : Registry) (self : SelfState) (prior : List String)
    (hok : CustomLogger.init reg fn dp name fl sl true sh = Except.ok (regOut, self)) :
    SinkKind.file (filePathOf self) "a+"
        ∈ (getLoggerState regOut (get_logger self)).handlers.map Handler.kind
    ∧ openLines "a+" prior = prior := by
  obtain ⟨hname, hbody⟩ := init_ok_inv reg fn dp name fl sl true sh regOut self hok
  have hreg : regOut = (initBody reg fn dp name fl sl true sh).1 := by rw [← hbody]
  have hself : self = (initBody reg fn dp name fl sl true sh).2 := by rw [← hbody]
  have hgl : get_logger self = name := by
    simp [hself, initBody_self, get_logger]
  constructor
  · rw [hreg, hgl, initBody_state]
    have hkind : SinkKind.file (filePathOf self) "a+" = (mkFileHandler ⟨name, fn, dp⟩ fl).kind := by
      rw [hself, initBody_self]
      rfl
    rw [hkind]
    simp only [List.mem_map, if_pos trivial]
    exact ⟨mkFileHandler ⟨name, fn, dp⟩ fl, by simp, rfl⟩
  · unfold openLines
    rw [if_neg (by decide)]

/-- C5 witness: the theorem applied to a concrete construction and a concrete
prior file content. -/
theorem C5_file_sink_append_mode_witness :
    SinkKind.file
        (filePathOf { loggerName := "L", log_file_name := "f", log_dir_path := "logs" }) "a+"
      ∈ (getLoggerState
          [("L", { level := 10
                 , handlers :=
                    [ { kind := SinkKind.file "logs/f_logger.log" "a+", level := 10
                      , fmt := logFmt, datefmt := logDatefmt }
                    , { kind := SinkKind.stream, level := 10
                      , fmt := logFmt, datefmt := logDatefmt } ] })]
          (get_logger
            { loggerName := "L", log_file_name := "f", log_dir_path := "logs" })).handlers.map
          Handler.kind
    ∧ openLines "a+" ["first line", "second line"] = ["first line", "second line"] :=
  C5_file_sink_append_mode [] "f" "logs" "L" "DEBUG" "DEBUG" true
    [("L", { level := 10
           , handlers :=
              [ { kind := SinkKind.file "logs/f_logger.log" "a+", level := 10
                , fmt := logFmt, datefmt := logDatefmt }
              , { kind := SinkKind.stream, level := 10
                , fmt := logFmt, datefmt := logDatefmt } ] })]
    { loggerName := "L", log_file_name := "f", log_dir_path := "logs" }
    ["first line", "second line"]
    rfl

/-- C7: starting from an empty registry, `n` repeated constructions with the
same name accumulate sinks on the shared named logger: with `k` sinks
requested per call, the handle owns `n * k` sinks afterwards. -/
theorem C7_repeated_calls_accumulate (n : Nat) (fn dp name fl sl : String) (fh sh : Bool)
    (hname : name ≠ "") :
    handlerCount (initIter n [] fn dp name fl sl fh sh) name
      = n * ((if fh then 1 else 0) + (if sh then 1 else 0)) := by
  induction n with
  | zero => simp [initIter, handlerCount, getLoggerState, findLogger, freshLogger]
  | succ m ih =>
      rw [initIter_succ m [] fn dp name fl sl fh sh hname, handlerCount_initBody, ih,
        Nat.succ_mul]

/-- C7 witness: after two constructions each attaching two sinks, the handle
owns four sinks. -/
theorem C7_repeated_calls_accumulate_witness :
    ("L" : String) ≠ ""
    ∧ handlerCount (initIter 2 [] "f" "logs" "L" "DEBUG" "DEBUG" true true) "L"
        = 2 * ((if true then 1 else 0) + (if true then 1 else 0)) :=
  ⟨by decide, C7_repeated_calls_accumulate 2 "f" "logs" "L" "DEBUG" "DEBUG" true true (by decide)⟩

/-- C8: two constructions with the same (previously unused) name yield the
same underlying logger: both handles' `get_logger` return the same registry
entry, and the registry holds exactly one entry under that name — no
duplicate logger is created. -/
theorem C8_same_name_same_logger (reg : Registry)
    (fn1 dp1 fn2 dp2 name fl1 sl1 fl2 sl2 : String) (fh1 sh1 fh2 sh2 : Bool)
    (reg1 reg2 : Registry) (self1 self2 : SelfState)
    (hfresh : findLogger reg name = none)
    (h1 : CustomLogger.init reg fn1 dp1 name fl1 sl1 fh1 sh1 = Except.ok (reg1, self1))
    (h2 : CustomLogger.init reg1 fn2 dp2 name fl2 sl2 fh2 sh2 = Except.ok (reg2, self2)) :
    get_logger self1 = get_logger self2 ∧ countKey reg2 name = 1 := by
  obtain ⟨hname, hbody1⟩ := init_ok_inv _ _ _ _ _ _ _ _ _ _ h1
  obtain ⟨_, hbody2⟩ := init_ok_inv _ _ _ _ _ _ _ _ _ _ h2
  have hself1 : self1 = (initBody reg fn1 dp1 name fl1 sl1 fh1 sh1).2 := by rw [← hbody1]
  have hself2 : self2 = (initBody reg1 fn2 dp2 name fl2 sl2 fh2 sh2).2 := by rw [← hbody2]
  have hreg1 : reg1 = (initBody reg fn1 dp1 name fl1 sl1 fh1 sh1).1 := by rw [← hbody1]
  have hreg2 : reg2 = (initBody reg1 fn2 dp2 name fl2 sl2 fh2 sh2).1 := by rw [← hbody2]
  constructor
  · simp [hself1, hself2, initBody_self, get_logger]
  · have hk1 : countKey reg1 name = 1 := by
      rw [hreg1]
      simp only [initBody, countKey_setLogger, hfresh, if_pos]
      simp [countKey_eq_zero_of_findLogger_none reg name hfresh]
    have hnotnone : findLogger reg1 name ≠ none := by
      rw [hreg1]
      simp [initBody, findLogger_setLogger]
    rw [hreg2]
    simp only [initBody, countKey_setLogger, if_neg hnotnone]
    exact hk1

/-- C8 witness: two concrete constructions under the name `L` starting from
the empty registry. -/
theorem C8_same_name_same_logger_witness :
    get_logger { loggerName := "L", log_file_name := "f1", log_dir_path := "d1" }
      = get_logger { loggerName := "L", log_file_name := "f2", log_dir_path := "d2" }
    ∧ countKey
        [("L", { level := 10
               , handlers :=
                  [ { kind := SinkKind.stream, level := 10
                    , fmt := logFmt, datefmt := logDatefmt }
                  , { kind := SinkKind.stream, level := 10
                    , fmt := logFmt, datefmt := logDatefmt } ] })] "L" = 1 :=
  C8_same_name_same_logger [] "f1" "d1" "f2" "d2" "L" "DEBUG" "DEBUG" "DEBUG" "DEBUG"
    false true false true
    [("L", { level := 10
           , handlers :=
              [ { kind := SinkKind.stream, level := 10
                , fmt := logFmt, datefmt := logDatefmt } ] })]
    [("L", { level := 10
           , handlers :=
              [ { kind := SinkKind.stream, level := 10
                , fmt := logFmt, datefmt := logDatefmt }
              , { kind := SinkKind.stream, level := 10
                , fmt := logFmt, datefmt := logDatefmt } ] })]
    { loggerName := "L", log_file_name := "f1", log_dir_path := "d1" }
    { loggerName := "L", log_file_name := "f2", log_dir_path := "d2" }
    rfl rfl rfl

/-- C9: `logTablePreview` emits, at `DEBUG` severity, exactly the first
`min 5 (number of rows)` rows of the given table. -/
theorem C9_table_preview_bounded (table : List (List String)) :
    (logTablePreview table).length = min 5 table.length
    ∧ (logTablePreview table).map Prod.snd = table.take 5
    ∧ (logTablePreview table).all (fun p => p.1 == DEBUG) = true := by
  refine ⟨?_, ?_, ?_⟩
  · simp [logTablePreview, List.length_take]
  · simp [logTablePreview, List.map_map]
  · rw [List.all_eq_true]
    intro p hp
    obtain ⟨row, hrow, hpe⟩ := List.mem_map.mp hp
    rw [← hpe]
    rfl

/-- C6: every sink attached by the factory — the file handler and the stream
handler alike — formats each record with the template
`[<loggerName>] <SEVERITY> (<timestamp>): <message> (Line: <lineNumber>)
[<sourceFileName>]`, where the timestamp renders as zero-padded month-day
followed by the hour on a 12-hour clock (1..12), the minute, and an AM/PM
marker. -/
theorem C6_format_template (self : SelfState) (fl sl : String) (r : Record) (h : Handler)
    (hmem : h = mkFileHandler self fl ∨ h = mkStreamHandler sl) :
    formatRecord h r =
      "[" ++ r.name ++ "] " ++ getLevelName r.levelno ++ " ("
        ++ strftimeChars r logDatefmt.data ++ "): " ++ r.msg
        ++ " (Line: " ++ toString r.lineno ++ ") [" ++ r.filename ++ "]"
    ∧ strftimeChars r logDatefmt.data
        = pad2 r.month ++ "-" ++ pad2 r.day ++ " " ++ pad2 (hour12 r.hour) ++ ":"
          ++ pad2 r.minute ++ " " ++ ampm r.hour
    ∧ (1 ≤ hour12 r.hour ∧ hour12 r.hour ≤ 12)
    ∧ (ampm r.hour = "AM" ∨ ampm r.hour = "PM") := by
  have hfmt : formatRecord h r
      = String.mk (interpFmt r (strftimeChars r logDatefmt.data) logFmt.data) := by
    obtain rfl | rfl := hmem <;> rfl
  exact ⟨hfmt.trans (interpFmt_logFmt r (strftimeChars r logDatefmt.data)),
    strftime_logDatefmt r, hour12_bounds r.hour, ampm_cases r.hour⟩

/-- C6 witness: the theorem applied to the file handler and a concrete record
(severity INFO, 13:05 on March 7, so the timestamp shows 01:05 PM). -/
theorem C6_format_template_witness :
    formatRecord
        (mkFileHandler { loggerName := "L", log_file_name := "f", log_dir_path := "logs" } "INFO")
        sampleRecord =
      "[" ++ sampleRecord.name ++ "] " ++ getLevelName sampleRecord.levelno ++ " ("
        ++ strftimeChars sampleRecord logDatefmt.data ++ "): " ++ sampleRecord.msg
        ++ " (Line: " ++ toString sampleRecord.lineno ++ ") [" ++ sampleRecord.filename ++ "]"
    ∧ strftimeChars sampleRecord logDatefmt.data
        = pad2 sampleRecord.month ++ "-" ++ pad2 sampleRecord.day ++ " "
          ++ pad2 (hour12 sampleRecord.hour) ++ ":" ++ pad2 sampleRecord.minute ++ " "
          ++ ampm sampleRecord.hour
    ∧ (1 ≤ hour12 sampleRecord.hour ∧ hour12 sampleRecord.hour ≤ 12)
    ∧ (ampm sampleRecord.hour = "AM" ∨ ampm sampleRecord.hour = "PM") :=
  C6_format_template { loggerName := "L", log_file_name := "f", log_dir_path := "logs" }
    "INFO" "DEBUG" sampleRecord
    (mkFileHandler { loggerName := "L", log_file_name := "f", log_dir_path := "logs" } "INFO")
    (Or.inl rfl)

end CLog
